import Mathlib

/-!
Verification development for the MCP-MONI transaction-orchestration core.

The TypeScript source (src/config.ts, src/swap.ts, src/wrapUnwrap.ts, the
staking module, and the transfer tool in src/index.ts) is shallowly embedded
here.  Chain interactions are modelled by an abstract environment `Env` whose
oracle functions answer reads, accept transaction submissions and deliver
receipts; every orchestration function is a Lean function that threads a
chronological trace of chain events (`Event`) and returns the structured
result the TypeScript function returns.  Thrown JavaScript exceptions are
modelled with `Except String`; the top-level `try/catch` of each source
function converts them into an `OpResult.err` value, exactly as the source
converts them into `{ success: false, error }`.
-/

/-- Token descriptor, mirroring the entries of `TOKEN_MAP` in src/config.ts. -/
structure TokenInfo where
  name : String
  symbol : String
  decimals : Nat
  address : String
deriving Repr, DecidableEq

/-- The static token registry from src/config.ts, in object-key order. -/
def TOKEN_MAP : List (String × TokenInfo) :=
  [ ("MON",    ⟨"Monad", "MON", 18, "0x0000000000000000000000000000000000000000"⟩)
  , ("WMON",   ⟨"Wrapped MON", "WMON", 18, "0x760AfE86e5de5fa0Ee542fc7B7B713e1c5425701"⟩)
  , ("aprMON", ⟨"Apriori Staked MON", "aprMON", 18, "0xb2f82D0f38dc453D596Ad40A37799446Cc89274A"⟩)
  , ("USDC",   ⟨"USD Coin", "USDC", 6, "0xf817257fed379853cDe0fa4F97AB987181B1E5Ea"⟩)
  , ("USDT",   ⟨"Tether USD", "USDT", 6, "0x88b8E2161DEDC77EF4ab7585569D2415a1C1055D"⟩)
  , ("WETH",   ⟨"Wrapped Ethereum", "WETH", 18, "0xB5a30b0FDc5EA94A52fDc42e3E9760Cb8449Fb37"⟩)
  , ("WBTC",   ⟨"Wrapped Bitcoin", "WBTC", 8, "0xcf5a6076cfa32686c0Df13aBaDa2b40dec133F1d"⟩)
  , ("DAK",    ⟨"Daiki Finance", "DAK", 18, "0x0F0BDEbF0F83cD1EE3974779Bcb7315f9808c714"⟩)
  , ("COG",    ⟨"Cogito", "COG", 18, "0xE0590015A873bF326bd645c3E1266d4db41C4E6B"⟩)
  , ("YAKI",   ⟨"Yaki Finance", "YAKI", 18, "0xfe140e1dCe99Be9F4F15d657CD9b7BF622270C50"⟩)
  , ("shMON",  ⟨"Staked MON", "shMON", 18, "0x3a98250F98Dd388C211206983453837C8365BDc1"⟩)
  , ("gMON",   ⟨"Governance MON", "gMON", 18, "0xaEef2f6B429Cb59C9B2D7bB2141ADa993E8571c3"⟩) ]

/-- JavaScript `toLowerCase()` for the ASCII strings this code handles,
implemented over the character list so proofs can evaluate it. -/
def jsToLower (s : String) : String := String.mk (s.data.map Char.toLower)

/-- JavaScript `toUpperCase()` for the ASCII strings this code handles. -/
def jsToUpper (s : String) : String := String.mk (s.data.map Char.toUpper)

/-- `Object.keys(TOKEN_MAP)` in insertion order. -/
def tokenKeys : List String := TOKEN_MAP.map Prod.fst

/-- `Object.keys(TOKEN_MAP).find(key => key.toLowerCase() === sym.toLowerCase())`. -/
def findTokenKey (sym : String) : Option String :=
  tokenKeys.find? (fun k => jsToLower k == jsToLower sym)

/-- Exact-key lookup, modelling `TOKEN_MAP[sym]` (where `sym` is a key). -/
def tokenInfo (sym : String) : Option TokenInfo :=
  (TOKEN_MAP.find? (fun p => p.1 == sym)).map Prod.snd

/-- The swap router address from src/swap.ts. -/
def SWAP_ROUTER_ADDRESS : String := "0xCa810D095e90Daae6e867c19DF6D9A8C56db2c89"

/-- `APRIORI_STAKING_ADDRESS = TOKEN_MAP.aprMON.address` from the staking module. -/
def APRIORI_STAKING_ADDRESS : String := "0xb2f82D0f38dc453D596Ad40A37799446Cc89274A"

/-- The WMON contract address (`TOKEN_MAP["WMON"].address`). -/
def WMON_ADDRESS : String := "0x760AfE86e5de5fa0Ee542fc7B7B713e1c5425701"

/-- The hardcoded wallet address checked inside `stakeMON`. -/
def EXPECTED_STAKE_ADDRESS : String := "0x5b84Dc548e45cC4f1498b95C000C748c1c953f64"

/-- JavaScript `BigInt` division truncates toward zero; model it with `Int.tdiv`. -/
def bigintDiv (a b : Int) : Int := Int.tdiv a b

/-- Value of a list of decimal digit characters. -/
def digitsToNat (l : List Char) : Nat :=
  l.foldl (fun acc c => 10 * acc + (c.toNat - 48)) 0

/-- Split a character list into integer and fractional digit parts, returning
`none` when the string does not match viem's `^(-?)([0-9]*)\.?([0-9]*)$`
decimal-number pattern (after the sign has been stripped). -/
def decSplit : List Char → List Char → Option (List Char × List Char)
  | [], intAcc => some (intAcc.reverse, [])
  | c :: rest, intAcc =>
    if c == '.' then
      if rest.all Char.isDigit then some (intAcc.reverse, rest) else none
    else if c.isDigit then decSplit rest (c :: intAcc)
    else none

/-- Drop trailing `'0'` characters, as viem's `parseUnits` strips a trailing
zero run from the fractional part. -/
def stripTrailingZeros (l : List Char) : List Char :=
  (l.reverse.dropWhile (fun c => c == '0')).reverse

/-- viem's `parseUnits value decimals`: convert a human-unit decimal string to
an integer in smallest units.  Returns `none` when viem would throw
(`InvalidDecimalNumberError` for a string not matching its decimal pattern).
Fractional digits beyond `decimals` are rounded half-up, matching the
string-level rounding viem performs. -/
def parseUnits (value : String) (decimals : Nat) : Option Int :=
  let chars := value.data
  let signAndRest : Bool × List Char :=
    match chars with
    | '-' :: r => (true, r)
    | r => (false, r)
  match decSplit signAndRest.2 [] with
  | none => none
  | some (intPart, fracPart0) =>
    let fracPart := stripTrailingZeros fracPart0
    let intVal := digitsToNat intPart
    let fracLen := fracPart.length
    let fracVal := digitsToNat fracPart
    let scaled : Nat :=
      if fracLen ≤ decimals then
        intVal * 10 ^ decimals + fracVal * 10 ^ (decimals - fracLen)
      else
        let keep := fracLen - decimals
        intVal * 10 ^ decimals + fracVal / 10 ^ keep +
          (if 10 ^ keep ≤ 2 * (fracVal % 10 ^ keep) then 1 else 0)
    some (if signAndRest.1 then -(scaled : Int) else (scaled : Int))

/-- viem's `parseEther` is `parseUnits` with 18 decimals. -/
def parseEther (value : String) : Option Int := parseUnits value 18

/-- viem's `formatUnits value decimals`: render an integer amount in smallest
units as a human-unit decimal string. -/
def formatUnits (value : Int) (decimals : Nat) : String :=
  let neg := decide (value < 0)
  let ds := (toString value.natAbs).data
  let display := List.replicate (decimals - ds.length) '0' ++ ds
  let intPart := display.take (display.length - decimals)
  let fracPart := stripTrailingZeros (display.drop (display.length - decimals))
  let intStr := if intPart.isEmpty then "0" else String.mk intPart
  let s := if fracPart.isEmpty then intStr else intStr ++ "." ++ String.mk fracPart
  if neg then "-" ++ s else s

/-- Receipt status as reported by viem (`'success' | 'reverted'`). -/
inductive TxStatus where
  | success
  | reverted
deriving Repr, DecidableEq

/-- A transaction receipt as consumed by the source code. -/
structure Receipt where
  status : TxStatus
  blockNumber : Nat
  transactionHash : String
deriving Repr, DecidableEq

/-- Transactions the orchestration core can submit. -/
inductive Tx where
  | approve (token spender : String) (amount : Int)
  | swapExactETHForTokens (amountOutMin : Int) (path : List String) (toAddr : String)
      (deadline : Nat) (value : Int)
  | swapExactTokensForETH (amountIn amountOutMin : Int) (path : List String) (toAddr : String)
      (deadline : Nat)
  | swapExactTokensForTokens (amountIn amountOutMin : Int) (path : List String) (toAddr : String)
      (deadline : Nat)
  | stakeDeposit (amount : Int) (receiver : String) (value : Int)
  | withdrawStake (amount : Int) (fromAddr receiver : String)
  | transferToken (token toAddr : String) (amount : Int)
  | wmonDeposit (contract : String) (value : Int)
  | wmonWithdraw (contract : String) (amount : Int)
  | sendNative (toAddr : String) (value : Int)
deriving Repr, DecidableEq

/-- Chain read requests issued by the orchestration core. -/
inductive ReadReq where
  | getBalance (addr : String)
  | balanceOf (token owner : String)
  | allowance (token owner spender : String)
  | getAmountsOut (amountIn : Int) (path : List String)
  | getBlock
deriving Repr, DecidableEq

/-- One chain interaction, in chronological order in a trace. -/
inductive Event where
  | read (r : ReadReq)
  | write (t : Tx)
  | wait (hash : String)
deriving Repr, DecidableEq

/-- The abstract chain environment: oracle answers for every interaction the
embedded code can perform.  `submitTx = none` models a submission that throws;
`receiptFor = none` models `waitForTransactionReceipt` timing out. -/
structure Env where
  privateKey : Option String
  walletAddress : String
  blockTimestamp : Nat
  nativeBalance : String → Int
  tokenBalance : String → String → Int
  allowanceOf : String → String → String → Int
  amountsOut : Int → List String → Option (List Int)
  submitTx : Tx → Option String
  receiptFor : String → Option Receipt

/-- The effect monad: a trace accumulator with JavaScript-style exceptions. -/
def M (α : Type) : Type := List Event → Except String α × List Event

def pureM {α : Type} (a : α) : M α := fun tr => (Except.ok a, tr)

def throwM {α : Type} (msg : String) : M α := fun tr => (Except.error msg, tr)

def bindM {α β : Type} (x : M α) (f : α → M β) : M β := fun tr =>
  match x tr with
  | (Except.ok a, tr1) => f a tr1
  | (Except.error e, tr1) => (Except.error e, tr1)

def emitM (e : Event) : M Unit := fun tr => (Except.ok (), tr ++ [e])

/-- JavaScript `try { x } catch (e) { h e }`.  Events emitted before the
failure stay in the trace: a submitted transaction cannot be unsubmitted. -/
def catchM {α : Type} (x : M α) (h : String → M α) : M α := fun tr =>
  match x tr with
  | (Except.ok a, tr1) => (Except.ok a, tr1)
  | (Except.error e, tr1) => h e tr1

/-- Structured result of an orchestrated operation: the source returns either
`{ success: true, ... }` or `{ success: false, error }`. -/
inductive OpResult (α : Type) where
  | ok (val : α)
  | err (msg : String)
deriving Repr, DecidableEq

def OpResult.isOk {α : Type} : OpResult α → Bool
  | .ok _ => true
  | .err _ => false

/-- Run an orchestration body under the source's top-level `try/catch`. -/
def runOp {α : Type} (x : M α) : OpResult α × List Event :=
  match x [] with
  | (Except.ok r, tr) => (OpResult.ok r, tr)
  | (Except.error e, tr) => (OpResult.err e, tr)

/-- Model of the `executeSwap`-style private-key presence check. -/
def requireKeyM (env : Env) (msg : String) : M String :=
  match env.privateKey with
  | some k => pureM k
  | none => throwM msg

def getBalanceM (env : Env) (addr : String) : M Int :=
  bindM (emitM (Event.read (ReadReq.getBalance addr))) fun _ =>
    pureM (env.nativeBalance addr)

def balanceOfM (env : Env) (token owner : String) : M Int :=
  bindM (emitM (Event.read (ReadReq.balanceOf token owner))) fun _ =>
    pureM (env.tokenBalance token owner)

def allowanceM (env : Env) (token owner spender : String) : M Int :=
  bindM (emitM (Event.read (ReadReq.allowance token owner spender))) fun _ =>
    pureM (env.allowanceOf token owner spender)

def readBlockM (env : Env) : M Nat :=
  bindM (emitM (Event.read ReadReq.getBlock)) fun _ =>
    pureM env.blockTimestamp

/-- The `getAmountsOut` read at the chain boundary.  This wrapper models the
network interaction itself; viem's client-side ABI encoding validation —
which rejects a bigint outside the uint256 range (e.g. a negative amount)
before any request is made — is outside this boundary, so runs are faithful
for argument values inside the encoded types' ranges. -/
def amountsOutM (env : Env) (amountIn : Int) (path : List String) : M (List Int) :=
  bindM (emitM (Event.read (ReadReq.getAmountsOut amountIn path))) fun _ =>
    match env.amountsOut amountIn path with
    | some l => pureM l
    | none => throwM "getAmountsOut call failed"

/-- Transaction submission at the chain boundary.  As with `amountsOutM`,
viem's client-side ABI range validation of the encoded arguments (rejecting
for instance a negative bigint in a uint256 slot before any network
interaction) is outside this boundary, so runs are faithful for argument
values inside the encoded types' ranges. -/
def submitM (env : Env) (t : Tx) : M String :=
  bindM (emitM (Event.write t)) fun _ =>
    match env.submitTx t with
    | some h => pureM h
    | none => throwM "transaction failed to send"

def waitReceiptM (env : Env) (h : String) : M Receipt :=
  bindM (emitM (Event.wait h)) fun _ =>
    match env.receiptFor h with
    | some r => pureM r
    | none => throwM "timed out while waiting for transaction receipt"

/-- Model of `parseUnits` as an effect: viem throws on an invalid string. -/
def parseUnitsM (amount : String) (decimals : Nat) : M Int :=
  match parseUnits amount decimals with
  | some v => pureM v
  | none => throwM "invalid decimal number"

/-- Model of `TOKEN_MAP[sym]` property access in a position where the source
assumes the key is present; an absent key would surface as a thrown
`TypeError` downstream. -/
def getInfoM (sym : String) : M TokenInfo :=
  match tokenInfo sym with
  | some i => pureM i
  | none => throwM ("TOKEN_MAP has no entry for " ++ sym)

/-- Model of indexing the returned `amounts` array; an out-of-range index
yields `undefined` and a thrown `TypeError` at the next arithmetic step. -/
def getIndexM (l : List Int) (i : Nat) : M Int :=
  match l.get? i with
  | some v => pureM v
  | none => throwM "amounts array element is undefined"

/-- Success payload of `executeSwap` (src/swap.ts). -/
structure SwapSuccess where
  fromTok : String
  toTok : String
  fromAmount : String
  toAmount : String
  txHash : String
  blockNumber : Nat
  fromAddr : String
deriving Repr, DecidableEq

/-- Success payload of `getSwapQuote` (src/swap.ts).  The floating-point
`rate` field is display-only in the source and is not modelled. -/
structure QuoteSuccess where
  fromTok : String
  toTok : String
  fromAmount : String
  toAmount : String
deriving Repr, DecidableEq

/-- Success payload of `stakeMON` (staking module). -/
structure StakeSuccess where
  amount : String
  txHash : String
  blockNumber : Nat
  fromAddr : String
  method : String
deriving Repr, DecidableEq

/-- Success payload of `requestUnstakeAprMON` (staking module). -/
structure UnstakeSuccess where
  amount : String
  receivedAmount : Option String
  txHash : String
  blockNumber : Nat
  fromAddr : String
  method : String
  message : String
deriving Repr, DecidableEq

/-- Success payload of `wrapMON` / `unwrapWMON` (src/wrapUnwrap.ts). -/
structure WrapSuccess where
  fromAddr : String
  txHash : String
  blockNumber : Nat
  amount : String
  token : String
  resultToken : String
deriving Repr, DecidableEq

/-- Success payload of `executeTransfer` (src/index.ts).  The source builds a
response text and returns it right after submission; it carries no block
number.  The closing sentence of that text is kept in `message`. -/
structure TransferSuccess where
  fromAddr : String
  txHash : String
  token : String
  amount : String
  message : String
deriving Repr, DecidableEq

/-- Body of `getSwapQuote` from src/swap.ts, line by line: case-insensitive
symbol resolution, native-MON substitution by WMON, the two-hop path,
`parseUnits`, the `getAmountsOut` read, element 1 of the answer, and
`formatUnits` for the reported output. -/
def getSwapQuoteCore (env : Env) (fromToken toToken amount : String) : M QuoteSuccess :=
  let sourceTokenExists := findTokenKey fromToken
  let destTokenExists := findTokenKey toToken
  bindM (if sourceTokenExists.isNone && jsToUpper fromToken != "MON" then
           throwM ("Source token " ++ fromToken ++ " is not supported.")
         else pureM ()) fun _ =>
  bindM (if destTokenExists.isNone && jsToUpper toToken != "MON" then
           throwM ("Destination token " ++ toToken ++ " is not supported.")
         else pureM ()) fun _ =>
  let sourceToken := if jsToUpper fromToken == "MON" then "MON" else sourceTokenExists.getD fromToken
  let destToken := if jsToUpper toToken == "MON" then "MON" else destTokenExists.getD toToken
  bindM (getInfoM (if sourceToken == "MON" then "WMON" else sourceToken)) fun sourceTokenInfo =>
  bindM (getInfoM (if destToken == "MON" then "WMON" else destToken)) fun destTokenInfo =>
  let path := [sourceTokenInfo.address, destTokenInfo.address]
  bindM (parseUnitsM amount sourceTokenInfo.decimals) fun amountIn =>
  bindM (amountsOutM env amountIn path) fun amounts =>
  bindM (getIndexM amounts 1) fun expectedOutputAmount =>
  let formattedOutputAmount := formatUnits expectedOutputAmount destTokenInfo.decimals
  pureM { fromTok := sourceToken, toTok := destToken, fromAmount := amount,
          toAmount := formattedOutputAmount }

/-- `getSwapQuote` with its top-level `try/catch`. -/
def getSwapQuote (env : Env) (fromToken toToken amount : String) :
    OpResult QuoteSuccess × List Event :=
  runOp (getSwapQuoteCore env fromToken toToken amount)

/-- The hardcoded aprMON → sMON → WMON path of the special case in
`executeSwap`, exactly as the lowercase literals in src/swap.ts. -/
def APRMON_MON_PATH : List String :=
  [ "0xb2f82d0f38dc453d596ad40a37799446cc89274a"
  , "0xe1d2439b75fb9746e7bc6cb777ae10aa7f7ef9c5"
  , "0x760afe86e5de5fa0ee542fc7b7b713e1c5425701" ]

/-- Body of `executeSwap` from src/swap.ts.  `slippageBps` is the integer
`BigInt(slippagePercent * 10)` the source computes from its float
`slippagePercent` argument (whole percent with one decimal of sub-percent
granularity). -/
def executeSwapCore (env : Env) (fromToken toToken amount : String) (slippageBps : Int) :
    M SwapSuccess :=
  bindM (requireKeyM env "Private key not found in environment variables") fun _ =>
  let accountAddress := env.walletAddress
  let sourceTokenExists := findTokenKey fromToken
  let destTokenExists := findTokenKey toToken
  bindM (if sourceTokenExists.isNone && jsToUpper fromToken != "MON" then
           throwM ("Source token " ++ fromToken ++ " is not supported.")
         else pureM ()) fun _ =>
  bindM (if destTokenExists.isNone && jsToUpper toToken != "MON" then
           throwM ("Destination token " ++ toToken ++ " is not supported.")
         else pureM ()) fun _ =>
  let sourceToken := if jsToUpper fromToken == "MON" then "MON" else sourceTokenExists.getD fromToken
  let destToken := if jsToUpper toToken == "MON" then "MON" else destTokenExists.getD toToken
  let isNativeSource := sourceToken == "MON"
  let isNativeDest := destToken == "MON"
  bindM (getInfoM (if isNativeSource then "WMON" else sourceToken)) fun sourceTokenInfo =>
  bindM (getInfoM (if isNativeDest then "WMON" else destToken)) fun destTokenInfo =>
  bindM (parseUnitsM amount sourceTokenInfo.decimals) fun amountIn =>
  bindM (readBlockM env) fun currentTimestamp =>
  let deadline := currentTimestamp + 20 * 60
  if sourceToken == "aprMON" && destToken == "MON" then
    let path := APRMON_MON_PATH
    bindM (submitM env (Tx.approve APRIORI_STAKING_ADDRESS SWAP_ROUTER_ADDRESS amountIn))
      fun approvalHash =>
    bindM (waitReceiptM env approvalHash) fun _ =>
    let expectedOutput := bigintDiv (amountIn * 9988) 10000
    let slippageFactor := 1000 - slippageBps
    let amountOutMin := bigintDiv (expectedOutput * slippageFactor) 1000
    bindM (submitM env
        (Tx.swapExactTokensForETH amountIn amountOutMin path accountAddress deadline)) fun hash =>
    bindM (waitReceiptM env hash) fun receipt =>
    let formattedOutput := formatUnits (bigintDiv (amountIn * 9988) 10000) 18
    pureM { fromTok := sourceToken, toTok := destToken, fromAmount := amount,
            toAmount := formattedOutput, txHash := hash, blockNumber := receipt.blockNumber,
            fromAddr := accountAddress }
  else
    let path := [sourceTokenInfo.address, destTokenInfo.address]
    bindM (amountsOutM env amountIn path) fun amounts =>
    bindM (getIndexM amounts 1) fun expectedOutput =>
    let slippageFactor := 1000 - slippageBps
    let amountOutMin := bigintDiv (expectedOutput * slippageFactor) 1000
    bindM
      (if isNativeSource then
         submitM env (Tx.swapExactETHForTokens amountOutMin path accountAddress deadline amountIn)
       else if isNativeDest then
         bindM (submitM env (Tx.approve sourceTokenInfo.address SWAP_ROUTER_ADDRESS amountIn))
           fun approvalHash =>
         bindM (waitReceiptM env approvalHash) fun _ =>
         submitM env (Tx.swapExactTokensForETH amountIn amountOutMin path accountAddress deadline)
       else
         bindM (submitM env (Tx.approve sourceTokenInfo.address SWAP_ROUTER_ADDRESS amountIn))
           fun approvalHash =>
         bindM (waitReceiptM env approvalHash) fun _ =>
         submitM env (Tx.swapExactTokensForTokens amountIn amountOutMin path accountAddress deadline))
      fun hash =>
    bindM (waitReceiptM env hash) fun receipt =>
    bindM (if receipt.status != TxStatus.success then
             throwM "Swap transaction failed or was reverted on blockchain"
           else pureM ()) fun _ =>
    let formattedOutput := formatUnits expectedOutput destTokenInfo.decimals
    pureM { fromTok := sourceToken, toTok := destToken, fromAmount := amount,
            toAmount := formattedOutput, txHash := hash, blockNumber := receipt.blockNumber,
            fromAddr := accountAddress }

/-- `executeSwap` with its top-level `try/catch`. -/
def executeSwap (env : Env) (fromToken toToken amount : String) (slippageBps : Int) :
    OpResult SwapSuccess × List Event :=
  runOp (executeSwapCore env fromToken toToken amount slippageBps)

/-- The inner `executeSwap` call made by `requestUnstakeAprMON`: the callee's
own `try/catch` turns exceptions into a failure value inside the caller. -/
def callSwapM (env : Env) (fromToken toToken amount : String) (slippageBps : Int) :
    M (OpResult SwapSuccess) :=
  catchM (bindM (executeSwapCore env fromToken toToken amount slippageBps)
            (fun r => pureM (OpResult.ok r)))
         (fun e => pureM (OpResult.err e))

/-- `parseUnits("1000000000", 18)`: the large approval ceiling the unstake
path approves "to avoid future approvals". -/
def UNSTAKE_APPROVAL_CEILING : Int := 1000000000 * 10 ^ 18

/-- Body of `stakeMON` from the staking module: key check, hardcoded wallet
address check, `parseUnits`, native balance read and check, the payable
`deposit(amount, receiver)` write, receipt wait, revert check. -/
def stakeMONCore (env : Env) (amount : String) : M StakeSuccess :=
  bindM (requireKeyM env "Private key not found in environment variables") fun _ =>
  let accountAddress := env.walletAddress
  bindM (if jsToLower accountAddress != jsToLower EXPECTED_STAKE_ADDRESS then
           throwM ("Private key generates different address (" ++ accountAddress ++
                   ") than expected (" ++ EXPECTED_STAKE_ADDRESS ++
                   "). Please check your private key in .env file.")
         else pureM ()) fun _ =>
  bindM (parseUnitsM amount 18) fun amountIn =>
  bindM (getBalanceM env accountAddress) fun balance =>
  bindM (if balance < amountIn then
           throwM ("Insufficient MON balance. You have " ++ formatUnits balance 18 ++
                   " MON but tried to stake " ++ amount ++ " MON")
         else pureM ()) fun _ =>
  bindM (submitM env (Tx.stakeDeposit amountIn accountAddress amountIn)) fun hash =>
  bindM (waitReceiptM env hash) fun receipt =>
  bindM (if receipt.status == TxStatus.reverted then
           throwM "Staking transaction failed or was reverted on blockchain"
         else pureM ()) fun _ =>
  pureM { amount := amount, txHash := hash, blockNumber := receipt.blockNumber,
          fromAddr := accountAddress, method := "deposit" }

/-- `stakeMON` with its top-level `try/catch`. -/
def stakeMON (env : Env) (amount : String) : OpResult StakeSuccess × List Event :=
  runOp (stakeMONCore env amount)

/-- Body of `requestUnstakeAprMON` from the staking module: key check,
`parseUnits`, allowance read, conditional large-ceiling approval (confirmed
before proceeding), then either the swap route (`useSwap`) or the
withdraw-then-transfer fallback chain. -/
def requestUnstakeAprMONCore (env : Env) (amount : String) (useSwap : Bool) : M UnstakeSuccess :=
  bindM (requireKeyM env "Private key not found in environment variables") fun _ =>
  let accountAddress := env.walletAddress
  bindM (parseUnitsM amount 18) fun amountIn =>
  bindM (allowanceM env APRIORI_STAKING_ADDRESS accountAddress APRIORI_STAKING_ADDRESS)
    fun allowance =>
  bindM (if allowance < amountIn then
           bindM (submitM env
               (Tx.approve APRIORI_STAKING_ADDRESS APRIORI_STAKING_ADDRESS
                 UNSTAKE_APPROVAL_CEILING)) fun approvalHash =>
           bindM (waitReceiptM env approvalHash) fun _ => pureM ()
         else pureM ()) fun _ =>
  if useSwap then
    bindM (callSwapM env "aprMON" "MON" amount 50) fun swapResult =>
    match swapResult with
    | OpResult.err e => throwM ("Swap failed: " ++ e)
    | OpResult.ok r =>
      pureM { amount := amount, receivedAmount := some r.toAmount, txHash := r.txHash,
              blockNumber := r.blockNumber, fromAddr := accountAddress, method := "swap",
              message := "Your " ++ amount ++ " aprMON has been converted to approximately " ++
                         r.toAmount ++ " MON using the swap method." }
  else
    bindM
      (catchM
        (bindM (submitM env (Tx.withdrawStake amountIn accountAddress accountAddress)) fun h =>
         bindM (waitReceiptM env h) fun rc => pureM (h, rc, "withdraw"))
        (fun _ =>
         bindM (submitM env
             (Tx.transferToken APRIORI_STAKING_ADDRESS APRIORI_STAKING_ADDRESS amountIn)) fun h =>
         bindM (waitReceiptM env h) fun rc => pureM (h, rc, "transfer")))
      fun res =>
    pureM { amount := amount, receivedAmount := none, txHash := res.1,
            blockNumber := res.2.1.blockNumber, fromAddr := accountAddress, method := res.2.2,
            message := "Your " ++ amount ++ " aprMON has been unstaked using the " ++ res.2.2 ++
                       " method. Please check your MON balance." }

/-- `requestUnstakeAprMON` with its top-level `try/catch`. -/
def requestUnstakeAprMON (env : Env) (amount : String) (useSwap : Bool) :
    OpResult UnstakeSuccess × List Event :=
  runOp (requestUnstakeAprMONCore env amount useSwap)

/-- Body of `wrapMON` from src/wrapUnwrap.ts: key check, `parseEther`, native
balance read and check, the payable WMON `deposit` write, receipt wait,
status check. -/
def wrapMONCore (env : Env) (amount : String) : M WrapSuccess :=
  bindM (requireKeyM env "Private key not found in environment variables") fun _ =>
  bindM (parseUnitsM amount 18) fun amountInWei =>
  let accountAddress := env.walletAddress
  let wmonAddress := WMON_ADDRESS
  bindM (getBalanceM env accountAddress) fun balance =>
  bindM (if balance < amountInWei then
           throwM ("Insufficient MON balance. You have " ++ formatUnits balance 18 ++
                   " MON but trying to wrap " ++ amount ++ " MON")
         else pureM ()) fun _ =>
  bindM (submitM env (Tx.wmonDeposit wmonAddress amountInWei)) fun hash =>
  bindM (waitReceiptM env hash) fun receipt =>
  bindM (if receipt.status != TxStatus.success then
           throwM "Transaction failed or was reverted on blockchain"
         else pureM ()) fun _ =>
  pureM { fromAddr := accountAddress, txHash := receipt.transactionHash,
          blockNumber := receipt.blockNumber, amount := amount, token := "MON",
          resultToken := "WMON" }

/-- `wrapMON` with its top-level `try/catch`. -/
def wrapMON (env : Env) (amount : String) : OpResult WrapSuccess × List Event :=
  runOp (wrapMONCore env amount)

/-- Body of `unwrapWMON` from src/wrapUnwrap.ts: key check, `parseEther`,
WMON `balanceOf` read and check, the WMON `withdraw` write, receipt wait,
status check. -/
def unwrapWMONCore (env : Env) (amount : String) : M WrapSuccess :=
  bindM (requireKeyM env "Private key not found in environment variables") fun _ =>
  bindM (parseUnitsM amount 18) fun amountInWei =>
  let accountAddress := env.walletAddress
  let wmonAddress := WMON_ADDRESS
  bindM (balanceOfM env wmonAddress accountAddress) fun wmonBalance =>
  bindM (if wmonBalance < amountInWei then
           throwM ("Insufficient WMON balance. You have " ++ formatUnits wmonBalance 18 ++
                   " WMON but trying to unwrap " ++ amount ++ " WMON")
         else pureM ()) fun _ =>
  bindM (submitM env (Tx.wmonWithdraw wmonAddress amountInWei)) fun hash =>
  bindM (waitReceiptM env hash) fun receipt =>
  bindM (if receipt.status != TxStatus.success then
           throwM "Transaction failed or was reverted on blockchain"
         else pureM ()) fun _ =>
  pureM { fromAddr := accountAddress, txHash := receipt.transactionHash,
          blockNumber := receipt.blockNumber, amount := amount, token := "WMON",
          resultToken := "MON" }

/-- `unwrapWMON` with its top-level `try/catch`. -/
def unwrapWMON (env : Env) (amount : String) : OpResult WrapSuccess × List Event :=
  runOp (unwrapWMONCore env amount)

/-- Body of `executeTransfer` from src/index.ts: key check, uppercase symbol
normalisation, support check, zero-balance check, then either a native
`sendTransaction` or an ERC-20 `transfer` write; the success response (which
asserts on-chain confirmation) is returned immediately after submission with
no receipt wait. -/
def executeTransferCore (env : Env) (toAddr amount token : String) : M TransferSuccess :=
  bindM (requireKeyM env "No test wallet private key found in .env file") fun _ =>
  let tokenSymbol := jsToUpper token
  bindM (if (tokenInfo tokenSymbol).isNone then
           throwM ("Token " ++ tokenSymbol ++ " is not supported.")
         else pureM ()) fun _ =>
  let accountAddress := env.walletAddress
  bindM (getBalanceM env accountAddress) fun balance =>
  bindM (if balance == 0 then
           throwM "The wallet has 0 MON balance. Please fund the wallet first before attempting a transfer"
         else pureM ()) fun _ =>
  bindM
    (if tokenSymbol == "MON" then
       bindM (parseUnitsM amount 18) fun v =>
       submitM env (Tx.sendNative toAddr v)
     else
       bindM (getInfoM tokenSymbol) fun tokenConfig =>
       bindM (parseUnitsM amount tokenConfig.decimals) fun v =>
       submitM env (Tx.transferToken tokenConfig.address toAddr v))
    fun hash =>
  pureM { fromAddr := accountAddress, txHash := hash, token := tokenSymbol, amount := amount,
          message := "The transaction has been confirmed on the blockchain." }

/-- `executeTransfer` with its top-level `try/catch`. -/
def executeTransfer (env : Env) (toAddr amount token : String) :
    OpResult TransferSuccess × List Event :=
  runOp (executeTransferCore env toAddr amount token)

/-- Extract the `amountOutMin` argument passed on-chain by a swap write. -/
def swapMinOf : Tx → Option Int
  | Tx.swapExactETHForTokens m _ _ _ _ => some m
  | Tx.swapExactTokensForETH _ m _ _ _ => some m
  | Tx.swapExactTokensForTokens _ m _ _ _ => some m
  | _ => none

/-- Extract the `path` argument passed on-chain by a swap write. -/
def swapPathOf : Tx → Option (List String)
  | Tx.swapExactETHForTokens _ p _ _ _ => some p
  | Tx.swapExactTokensForETH _ _ p _ _ => some p
  | Tx.swapExactTokensForTokens _ _ p _ _ => some p
  | _ => none

/-- Whether an event is a transaction submission. -/
def Event.isWrite : Event → Bool
  | Event.write _ => true
  | _ => false

/-- Whether an event is a receipt wait. -/
def Event.isWait : Event → Bool
  | Event.wait _ => true
  | _ => false

/-- Whether an event is an ERC-20 `allowance` read. -/
def Event.isAllowanceRead : Event → Bool
  | Event.read (ReadReq.allowance _ _ _) => true
  | _ => false

/-- Whether an event is an ERC-20 `approve` submission. -/
def Event.isApproveWrite : Event → Bool
  | Event.write (Tx.approve _ _ _) => true
  | _ => false

/-- The symbol-normalisation step shared by `getSwapQuote` and `executeSwap`:
case-insensitive registry match, with any case variant of MON collapsed to
the native sentinel symbol. -/
def normalizeSymbol (s : String) : String :=
  if jsToUpper s == "MON" then "MON" else (findTokenKey s).getD s

/-- The address the quote/swap path uses for a symbol: the registry address,
with the native sentinel substituted by WMON. -/
def resolvedAddress (s : String) : Option String :=
  (tokenInfo (if normalizeSymbol s == "MON" then "WMON" else normalizeSymbol s)).map
    (fun i => i.address)

/-- The named-exception table of hardcoded swap paths, keyed by normalised
(source, destination): the data form of the aprMON → MON special case in
`executeSwap`. -/
def exceptionPath (src dst : String) : Option (List String) :=
  if src == "aprMON" && dst == "MON" then some APRMON_MON_PATH else none

/-- The minimum-output formula of src/swap.ts:
`(expectedOutput * (1000n - slippageBps)) / 1000n` in BigInt arithmetic. -/
def amountOutMinFormula (expectedOutput slippageBps : Int) : Int :=
  bigintDiv (expectedOutput * (1000 - slippageBps)) 1000

/-- A fully cooperative chain environment used for concrete runs: ample
balances, huge allowance, every submission accepted, every receipt a success. -/
def envHappy : Env :=
  { privateKey := some "0xkey"
  , walletAddress := "0x5b84Dc548e45cC4f1498b95C000C748c1c953f64"
  , blockTimestamp := 1000
  , nativeBalance := fun _ => 10 ^ 24
  , tokenBalance := fun _ _ => 10 ^ 24
  , allowanceOf := fun _ _ _ => 10 ^ 30
  , amountsOut := fun _ _ => some [10 ^ 6, 1000000]
  , submitTx := fun _ => some "0xtxhash"
  , receiptFor := fun h => some ⟨TxStatus.success, 42, h⟩ }

/-- Like `envHappy` but every receipt reports `reverted`. -/
def envRevert : Env :=
  { envHappy with receiptFor := fun h => some ⟨TxStatus.reverted, 42, h⟩ }

/-- Like `envHappy` but every balance and allowance is zero. -/
def envBroke : Env :=
  { envHappy with
      nativeBalance := fun _ => 0
    , tokenBalance := fun _ _ => 0
    , allowanceOf := fun _ _ _ => 0 }

/-- Like `envHappy` but the canonical `withdraw` submission throws. -/
def envNoWithdraw : Env :=
  { envHappy with
      submitTx := fun t =>
        match t with
        | Tx.withdrawStake _ _ _ => none
        | _ => some "0xtxhash" }

/-- Like `envHappy` but both the `withdraw` and the fallback `transfer`
submissions throw. -/
def envNoWithdrawNoTransfer : Env :=
  { envHappy with
      submitTx := fun t =>
        match t with
        | Tx.withdrawStake _ _ _ => none
        | Tx.transferToken _ _ _ => none
        | _ => some "0xtxhash" }

/-- C1: for every swap execution with expected output E and slippage expressed
as slippageBps (the source's `BigInt(slippagePercent * 10)`), the
minimum-output floor passed on-chain in the swap transaction equals
`E * (1000 - slippageBps) / 1000` in integer arithmetic.  Stated for each of
the four swap routes (ERC-20 to ERC-20, native source, native destination,
and the special-cased aprMON to MON route whose local expected output is
`amountIn * 9988 / 10000`), against any environment whose oracles are pinned
by the hypotheses; the final conjunct shows the formula is floor division for
in-range inputs. -/
theorem C1_minimum_output_floor :
    (∀ (env : Env) (k amount : String) (a E bps : Int) (hsub : String) (bn : Nat),
      env.privateKey = some k →
      parseUnits amount 6 = some a →
      env.amountsOut a ["0xf817257fed379853cDe0fa4F97AB987181B1E5Ea",
        "0xB5a30b0FDc5EA94A52fDc42e3E9760Cb8449Fb37"] = some [a, E] →
      (∀ t, env.submitTx t = some hsub) →
      (∀ h, env.receiptFor h = some ⟨TxStatus.success, bn, h⟩) →
      Event.write (Tx.swapExactTokensForTokens a (amountOutMinFormula E bps)
          ["0xf817257fed379853cDe0fa4F97AB987181B1E5Ea",
           "0xB5a30b0FDc5EA94A52fDc42e3E9760Cb8449Fb37"]
          env.walletAddress (env.blockTimestamp + 20 * 60))
        ∈ (executeSwap env "USDC" "WETH" amount bps).2)
    ∧ (∀ (env : Env) (k amount : String) (a E bps : Int) (hsub : String) (bn : Nat),
      env.privateKey = some k →
      parseUnits amount 18 = some a →
      env.amountsOut a ["0x760AfE86e5de5fa0Ee542fc7B7B713e1c5425701",
        "0xf817257fed379853cDe0fa4F97AB987181B1E5Ea"] = some [a, E] →
      (∀ t, env.submitTx t = some hsub) →
      (∀ h, env.receiptFor h = some ⟨TxStatus.success, bn, h⟩) →
      Event.write (Tx.swapExactETHForTokens (amountOutMinFormula E bps)
          ["0x760AfE86e5de5fa0Ee542fc7B7B713e1c5425701",
           "0xf817257fed379853cDe0fa4F97AB987181B1E5Ea"]
          env.walletAddress (env.blockTimestamp + 20 * 60) a)
        ∈ (executeSwap env "MON" "USDC" amount bps).2)
    ∧ (∀ (env : Env) (k amount : String) (a E bps : Int) (hsub : String) (bn : Nat),
      env.privateKey = some k →
      parseUnits amount 6 = some a →
      env.amountsOut a ["0xf817257fed379853cDe0fa4F97AB987181B1E5Ea",
        "0x760AfE86e5de5fa0Ee542fc7B7B713e1c5425701"] = some [a, E] →
      (∀ t, env.submitTx t = some hsub) →
      (∀ h, env.receiptFor h = some ⟨TxStatus.success, bn, h⟩) →
      Event.write (Tx.swapExactTokensForETH a (amountOutMinFormula E bps)
          ["0xf817257fed379853cDe0fa4F97AB987181B1E5Ea",
           "0x760AfE86e5de5fa0Ee542fc7B7B713e1c5425701"]
          env.walletAddress (env.blockTimestamp + 20 * 60))
        ∈ (executeSwap env "USDC" "MON" amount bps).2)
    ∧ (∀ (env : Env) (k amount : String) (a bps : Int) (hsub : String) (bn : Nat),
      env.privateKey = some k →
      parseUnits amount 18 = some a →
      (∀ t, env.submitTx t = some hsub) →
      (∀ h, env.receiptFor h = some ⟨TxStatus.success, bn, h⟩) →
      Event.write (Tx.swapExactTokensForETH a
          (amountOutMinFormula (bigintDiv (a * 9988) 10000) bps) APRMON_MON_PATH
          env.walletAddress (env.blockTimestamp + 20 * 60))
        ∈ (executeSwap env "aprMON" "MON" amount bps).2)
    ∧ (∀ E bps : Int, 0 ≤ E → 0 ≤ bps → bps ≤ 1000 →
        amountOutMinFormula E bps = ((E.toNat * (1000 - bps).toNat) / 1000 : Nat)) := by
  refine ⟨?_, ?_, ?_, ?_, ?_⟩
  · intro env k amount a E bps hsub bn hk hp ha hs hr
    simp [executeSwap, runOp, executeSwapCore, bindM, catchM, pureM, throwM, emitM,
      requireKeyM, parseUnitsM, readBlockM, amountsOutM, submitM, waitReceiptM, getInfoM,
      getIndexM, findTokenKey, tokenKeys, TOKEN_MAP, tokenInfo, jsToUpper, jsToLower,
      amountOutMinFormula, hk, hp, ha, hs, hr]
  · intro env k amount a E bps hsub bn hk hp ha hs hr
    simp [executeSwap, runOp, executeSwapCore, bindM, catchM, pureM, throwM, emitM,
      requireKeyM, parseUnitsM, readBlockM, amountsOutM, submitM, waitReceiptM, getInfoM,
      getIndexM, findTokenKey, tokenKeys, TOKEN_MAP, tokenInfo, jsToUpper, jsToLower,
      amountOutMinFormula, hk, hp, ha, hs, hr]
  · intro env k amount a E bps hsub bn hk hp ha hs hr
    simp [executeSwap, runOp, executeSwapCore, bindM, catchM, pureM, throwM, emitM,
      requireKeyM, parseUnitsM, readBlockM, amountsOutM, submitM, waitReceiptM, getInfoM,
      getIndexM, findTokenKey, tokenKeys, TOKEN_MAP, tokenInfo, jsToUpper, jsToLower,
      amountOutMinFormula, hk, hp, ha, hs, hr]
  · intro env k amount a bps hsub bn hk hp hs hr
    simp [executeSwap, runOp, executeSwapCore, bindM, catchM, pureM, throwM, emitM,
      requireKeyM, parseUnitsM, readBlockM, amountsOutM, submitM, waitReceiptM, getInfoM,
      getIndexM, findTokenKey, tokenKeys, TOKEN_MAP, tokenInfo, jsToUpper, jsToLower,
      amountOutMinFormula, hk, hp, hs, hr]
  · intro E bps hE h0 h1
    obtain ⟨e, rfl⟩ := Int.eq_ofNat_of_zero_le hE
    obtain ⟨s, hs⟩ := Int.eq_ofNat_of_zero_le (by omega : (0 : Int) ≤ 1000 - bps)
    have htn : (1000 - bps).toNat = s := by omega
    simp only [amountOutMinFormula, bigintDiv, hs, htn, Int.toNat_ofNat]
    rw [show ((e : Int) * (s : Int)) = ((e * s : Nat) : Int) by push_cast; ring]
    rfl

/-- C1 witness: expected output 1,000,000 smallest units at slippage 2.0%
(slippageBps = 20) produces an on-chain floor of exactly 980,000. -/
theorem C1_minimum_output_floor_witness :
    envHappy.privateKey = some "0xkey"
    ∧ parseUnits "1" 6 = some 1000000
    ∧ envHappy.amountsOut 1000000 ["0xf817257fed379853cDe0fa4F97AB987181B1E5Ea",
        "0xB5a30b0FDc5EA94A52fDc42e3E9760Cb8449Fb37"] = some [1000000, 1000000]
    ∧ Event.write (Tx.swapExactTokensForTokens 1000000 980000
        ["0xf817257fed379853cDe0fa4F97AB987181B1E5Ea",
         "0xB5a30b0FDc5EA94A52fDc42e3E9760Cb8449Fb37"]
        "0x5b84Dc548e45cC4f1498b95C000C748c1c953f64" (1000 + 20 * 60))
        ∈ (executeSwap envHappy "USDC" "WETH" "1" 20).2
    ∧ amountOutMinFormula 1000000 20 = 980000 :=
  ⟨rfl, by decide, rfl,
   C1_minimum_output_floor.1 envHappy "0xkey" "1" 1000000 1000000 20 "0xtxhash" 42 rfl
     (by decide) rfl (fun t => rfl) (fun h => rfl),
   by decide⟩

/-- C2 counterexample: in `executeSwap` (an operation moving a non-native
token, USDC, to the third-party router) the current allowance is never read
and an approval transaction is submitted even though the spender's allowance
(10^30) already covers the amount being moved (10^6): the claim's
"reads the allowance first, skips approval when allowance ≥ amount" fails. -/
theorem C2_counterexample :
    envHappy.allowanceOf "0xf817257fed379853cDe0fa4F97AB987181B1E5Ea"
        envHappy.walletAddress SWAP_ROUTER_ADDRESS = 10 ^ 30
    ∧ (10 ^ 6 : Int) ≤ 10 ^ 30
    ∧ Event.write (Tx.approve "0xf817257fed379853cDe0fa4F97AB987181B1E5Ea"
        SWAP_ROUTER_ADDRESS (10 ^ 6)) ∈ (executeSwap envHappy "USDC" "WETH" "1" 20).2
    ∧ (executeSwap envHappy "USDC" "WETH" "1" 20).2.all
        (fun e => !e.isAllowanceRead) = true :=
  ⟨rfl, by norm_num, by decide, by decide⟩

/-- C2 amended: the conditional-approval protocol holds for the unstake
operation only.  `requestUnstakeAprMON` first reads the allowance; when
allowance ≥ amount no approval is submitted, and when allowance < amount a
large-ceiling approval is submitted and its receipt awaited before the
withdraw transaction — shown by the exact traces.  (`executeSwap` instead
approves unconditionally, per the counterexample.) -/
theorem C2_conditional_approval_unstake_only :
    ∀ (env : Env) (k amount : String) (a al : Int) (hsub : String) (bn : Nat),
      env.privateKey = some k →
      parseUnits amount 18 = some a →
      env.allowanceOf APRIORI_STAKING_ADDRESS env.walletAddress APRIORI_STAKING_ADDRESS = al →
      (∀ t, env.submitTx t = some hsub) →
      (∀ h, env.receiptFor h = some ⟨TxStatus.success, bn, h⟩) →
      (a ≤ al →
        (requestUnstakeAprMON env amount false).2 =
          [Event.read (ReadReq.allowance APRIORI_STAKING_ADDRESS env.walletAddress
             APRIORI_STAKING_ADDRESS),
           Event.write (Tx.withdrawStake a env.walletAddress env.walletAddress),
           Event.wait hsub])
      ∧ (al < a →
        (requestUnstakeAprMON env amount false).2 =
          [Event.read (ReadReq.allowance APRIORI_STAKING_ADDRESS env.walletAddress
             APRIORI_STAKING_ADDRESS),
           Event.write (Tx.approve APRIORI_STAKING_ADDRESS APRIORI_STAKING_ADDRESS
             UNSTAKE_APPROVAL_CEILING),
           Event.wait hsub,
           Event.write (Tx.withdrawStake a env.walletAddress env.walletAddress),
           Event.wait hsub]) := by
  intro env k amount a al hsub bn hk hp hal hs hr
  constructor
  · intro hle
    have hnlt : ¬ (al < a) := by omega
    simp [requestUnstakeAprMON, runOp, requestUnstakeAprMONCore, bindM, catchM, pureM,
      throwM, emitM, requireKeyM, parseUnitsM, allowanceM, submitM, waitReceiptM,
      hk, hp, hal, hs, hr, hnlt]
  · intro hlt
    simp [requestUnstakeAprMON, runOp, requestUnstakeAprMONCore, bindM, catchM, pureM,
      throwM, emitM, requireKeyM, parseUnitsM, allowanceM, submitM, waitReceiptM,
      hk, hp, hal, hs, hr, hlt]

/-- C2 amended witness: with allowance 10^30 ≥ 10^18 the unstake trace has no
approval; the theorem is applied at a concrete cooperative environment. -/
theorem C2_conditional_approval_unstake_only_witness :
    (10 ^ 18 : Int) ≤ 10 ^ 30
    ∧ (requestUnstakeAprMON envHappy "1" false).2 =
      [Event.read (ReadReq.allowance APRIORI_STAKING_ADDRESS
         "0x5b84Dc548e45cC4f1498b95C000C748c1c953f64" APRIORI_STAKING_ADDRESS),
       Event.write (Tx.withdrawStake (10 ^ 18)
         "0x5b84Dc548e45cC4f1498b95C000C748c1c953f64"
         "0x5b84Dc548e45cC4f1498b95C000C748c1c953f64"),
       Event.wait "0xtxhash"] :=
  ⟨by norm_num,
   (C2_conditional_approval_unstake_only envHappy "0xkey" "1" (10 ^ 18) (10 ^ 30)
      "0xtxhash" 42 rfl (by decide) rfl (fun t => rfl) (fun h => rfl)).1 (by norm_num)⟩

/-- C3 counterexample: the aprMON → MON special-cased swap returns a success
result even though the action transaction's confirmation receipt reports
`reverted` (the environment `envRevert` delivers reverted receipts for every
hash, and the special-cased branch never checks the receipt status). -/
theorem C3_counterexample :
    envRevert.receiptFor "0xtxhash" = some ⟨TxStatus.reverted, 42, "0xtxhash"⟩
    ∧ (executeSwap envRevert "aprMON" "MON" "1" 50).1.isOk = true :=
  ⟨rfl, by decide⟩

/-- C3 amended: a reverted confirmation receipt yields a failure result for
the operations that check the receipt status — wrap, unwrap, stake, and the
default (non-special-cased) swap path — while the aprMON → MON special case
(per the counterexample) and the non-swap unstake paths skip the check.
Stated against any environment whose receipts all report `reverted`. -/
theorem C3_reverted_is_failure_where_checked :
    (∀ (env : Env) (k amount : String) (a b : Int) (hsub : String) (bn : Nat),
      env.privateKey = some k →
      parseUnits amount 18 = some a →
      env.nativeBalance env.walletAddress = b →
      a ≤ b →
      (∀ t, env.submitTx t = some hsub) →
      (∀ h, env.receiptFor h = some ⟨TxStatus.reverted, bn, h⟩) →
      (wrapMON env amount).1 =
        OpResult.err "Transaction failed or was reverted on blockchain")
    ∧ (∀ (env : Env) (k amount : String) (a b : Int) (hsub : String) (bn : Nat),
      env.privateKey = some k →
      parseUnits amount 18 = some a →
      env.tokenBalance WMON_ADDRESS env.walletAddress = b →
      a ≤ b →
      (∀ t, env.submitTx t = some hsub) →
      (∀ h, env.receiptFor h = some ⟨TxStatus.reverted, bn, h⟩) →
      (unwrapWMON env amount).1 =
        OpResult.err "Transaction failed or was reverted on blockchain")
    ∧ (∀ (env : Env) (k amount : String) (a b : Int) (hsub : String) (bn : Nat),
      env.privateKey = some k →
      jsToLower env.walletAddress = jsToLower EXPECTED_STAKE_ADDRESS →
      parseUnits amount 18 = some a →
      env.nativeBalance env.walletAddress = b →
      a ≤ b →
      (∀ t, env.submitTx t = some hsub) →
      (∀ h, env.receiptFor h = some ⟨TxStatus.reverted, bn, h⟩) →
      (stakeMON env amount).1 =
        OpResult.err "Staking transaction failed or was reverted on blockchain")
    ∧ (∀ (env : Env) (k amount : String) (a E bps : Int) (hsub : String) (bn : Nat),
      env.privateKey = some k →
      parseUnits amount 6 = some a →
      env.amountsOut a ["0xf817257fed379853cDe0fa4F97AB987181B1E5Ea",
        "0xB5a30b0FDc5EA94A52fDc42e3E9760Cb8449Fb37"] = some [a, E] →
      (∀ t, env.submitTx t = some hsub) →
      (∀ h, env.receiptFor h = some ⟨TxStatus.reverted, bn, h⟩) →
      (executeSwap env "USDC" "WETH" amount bps).1 =
        OpResult.err "Swap transaction failed or was reverted on blockchain") := by
  refine ⟨?_, ?_, ?_, ?_⟩
  · intro env k amount a b hsub bn hk hp hb hab hs hr
    have hnlt : ¬ (b < a) := by omega
    simp [wrapMON, runOp, wrapMONCore, bindM, catchM, pureM, throwM, emitM,
      requireKeyM, parseUnitsM, getBalanceM, submitM, waitReceiptM,
      hk, hp, hb, hnlt, hs, hr]
  · intro env k amount a b hsub bn hk hp hb hab hs hr
    have hnlt : ¬ (b < a) := by omega
    simp [unwrapWMON, runOp, unwrapWMONCore, bindM, catchM, pureM, throwM, emitM,
      requireKeyM, parseUnitsM, balanceOfM, submitM, waitReceiptM,
      hk, hp, hb, hnlt, hs, hr]
  · intro env k amount a b hsub bn hk haddr hp hb hab hs hr
    have hnlt : ¬ (b < a) := by omega
    simp [stakeMON, runOp, stakeMONCore, bindM, catchM, pureM, throwM, emitM,
      requireKeyM, parseUnitsM, getBalanceM, submitM, waitReceiptM,
      hk, haddr, hp, hb, hnlt, hs, hr]
  · intro env k amount a E bps hsub bn hk hp ha hs hr
    simp [executeSwap, runOp, executeSwapCore, bindM, catchM, pureM, throwM, emitM,
      requireKeyM, parseUnitsM, readBlockM, amountsOutM, submitM, waitReceiptM, getInfoM,
      getIndexM, findTokenKey, tokenKeys, TOKEN_MAP, tokenInfo, jsToUpper, jsToLower,
      hk, hp, ha, hs, hr]

/-- C3 amended witness: the wrap operation at a concrete reverted-receipt
environment yields the failure result. -/
theorem C3_reverted_is_failure_where_checked_witness :
    envRevert.privateKey = some "0xkey"
    ∧ parseUnits "1" 18 = some (10 ^ 18)
    ∧ envRevert.nativeBalance envRevert.walletAddress = 10 ^ 24
    ∧ (10 ^ 18 : Int) ≤ 10 ^ 24
    ∧ (wrapMON envRevert "1").1 =
        OpResult.err "Transaction failed or was reverted on blockchain" :=
  ⟨rfl, by decide, rfl, by norm_num,
   C3_reverted_is_failure_where_checked.1 envRevert "0xkey" "1" (10 ^ 18) (10 ^ 24)
     "0xtxhash" 42 rfl (by decide) rfl (by norm_num) (fun t => rfl) (fun h => rfl)⟩

/-- C8: staking is gated on one hardcoded wallet: whenever the address derived
from the configured key differs (case-insensitively) from
0x5b84Dc548e45cC4f1498b95C000C748c1c953f64, `stakeMON` fails before any chain
interaction, and every success implies the address matched. -/
theorem C8_stake_hardcoded_wallet :
    (∀ (env : Env) (amount : String),
        jsToLower env.walletAddress ≠ jsToLower EXPECTED_STAKE_ADDRESS →
        (stakeMON env amount).1.isOk = false ∧ (stakeMON env amount).2 = [])
    ∧ (∀ (env : Env) (amount : String) (r : StakeSuccess),
        (stakeMON env amount).1 = OpResult.ok r →
        jsToLower env.walletAddress = jsToLower EXPECTED_STAKE_ADDRESS) := by
  constructor
  · intro env amount h
    cases hk : env.privateKey <;>
      simp [stakeMON, runOp, stakeMONCore, bindM, requireKeyM, parseUnitsM, getBalanceM,
        submitM, waitReceiptM, emitM, pureM, throwM, OpResult.isOk, hk, h]
  · intro env amount r hr
    by_contra h
    cases hk : env.privateKey <;>
      simp [stakeMON, runOp, stakeMONCore, bindM, requireKeyM, parseUnitsM, getBalanceM,
        submitM, waitReceiptM, emitM, pureM, throwM, hk, h] at hr

/-- C8 witness: a wallet address other than the hardcoded one makes `stakeMON`
fail with no chain interaction at all. -/
theorem C8_stake_hardcoded_wallet_witness :
    jsToLower "0x1111111111111111111111111111111111111111" ≠
      jsToLower EXPECTED_STAKE_ADDRESS
    ∧ (stakeMON { envHappy with
        walletAddress := "0x1111111111111111111111111111111111111111" } "1").1.isOk = false
    ∧ (stakeMON { envHappy with
        walletAddress := "0x1111111111111111111111111111111111111111" } "1").2 = [] :=
  ⟨by decide,
   (C8_stake_hardcoded_wallet.1 { envHappy with
      walletAddress := "0x1111111111111111111111111111111111111111" } "1" (by decide)).1,
   (C8_stake_hardcoded_wallet.1 { envHappy with
      walletAddress := "0x1111111111111111111111111111111111111111" } "1" (by decide)).2⟩

/-- C4 counterexample: an input amount of "0" (non-positive) is not rejected:
the quote converts it successfully and proceeds to the on-chain
`getAmountsOut` read, returning a success result — no InvalidAmount failure
occurs before (or after) the network call. -/
theorem C4_counterexample :
    parseUnits "0" 18 = some 0
    ∧ (getSwapQuote envHappy "MON" "USDC" "0").1.isOk = true
    ∧ (getSwapQuote envHappy "MON" "USDC" "0").2 ≠ [] :=
  ⟨by decide, by decide, by decide⟩

/-- C4 amended: non-numeric amounts fail during unit conversion, before any
network call — `parseUnits` throws and both quote and execution return a
failure with an empty chain trace (carrying the raw message, there is no
InvalidAmount classification); the amount "0" is not rejected: it converts
successfully, the quote proceeds to the on-chain `getAmountsOut` read and can
return a success result, and the orchestrated swap proceeds all the way to
transaction submission and success. -/
theorem C4_invalid_amount_handling :
    (∀ (env : Env) (k amount : String),
      env.privateKey = some k →
      parseUnits amount 6 = none →
      getSwapQuote env "USDC" "WETH" amount = (OpResult.err "invalid decimal number", [])
      ∧ executeSwap env "USDC" "WETH" amount 20 = (OpResult.err "invalid decimal number", []))
    ∧ parseUnits "abc" 6 = none
    ∧ parseUnits "1.2.3" 6 = none
    ∧ parseUnits "0" 6 = some 0
    ∧ (getSwapQuote envHappy "USDC" "WETH" "0").1.isOk = true
    ∧ (getSwapQuote envHappy "USDC" "WETH" "0").2 ≠ []
    ∧ Event.write (Tx.approve "0xf817257fed379853cDe0fa4F97AB987181B1E5Ea"
        SWAP_ROUTER_ADDRESS 0) ∈ (executeSwap envHappy "USDC" "WETH" "0" 20).2
    ∧ (executeSwap envHappy "USDC" "WETH" "0" 20).1.isOk = true := by
  refine ⟨?_, by decide, by decide, by decide, by decide, by decide, by decide,
    by decide⟩
  intro env k amount hk hp
  constructor
  · simp [getSwapQuote, runOp, getSwapQuoteCore, bindM, catchM, pureM, throwM, emitM,
      parseUnitsM, amountsOutM, getInfoM, getIndexM, findTokenKey, tokenKeys, TOKEN_MAP,
      tokenInfo, jsToUpper, jsToLower, hp]
  · simp [executeSwap, runOp, executeSwapCore, bindM, catchM, pureM, throwM, emitM,
      requireKeyM, parseUnitsM, readBlockM, amountsOutM, submitM, waitReceiptM, getInfoM,
      getIndexM, findTokenKey, tokenKeys, TOKEN_MAP, tokenInfo, jsToUpper, jsToLower,
      hk, hp]

/-- C4 amended witness: the non-numeric amount "abc" makes both quote and
execution fail with an empty chain trace. -/
theorem C4_invalid_amount_handling_witness :
    envHappy.privateKey = some "0xkey"
    ∧ parseUnits "abc" 6 = none
    ∧ getSwapQuote envHappy "USDC" "WETH" "abc" = (OpResult.err "invalid decimal number", [])
    ∧ executeSwap envHappy "USDC" "WETH" "abc" 20 =
        (OpResult.err "invalid decimal number", []) :=
  ⟨rfl, by decide,
   (C4_invalid_amount_handling.1 envHappy "0xkey" "abc" rfl (by decide)).1,
   (C4_invalid_amount_handling.1 envHappy "0xkey" "abc" rfl (by decide)).2⟩

/-- C5: with the swap policy flag unset, the unstake orchestrator attempts the
canonical withdraw first; when the withdraw submission fails it submits the
transfer fallback and, when that succeeds, returns a success recording
method = "transfer"; when the transfer also fails the whole operation returns
a failure (the spec's StrategyExhausted outcome) — shown with exact result
and trace against any environment satisfying the pins. -/
theorem C5_unstake_fallback_chain :
    ∀ (env : Env) (k amount : String) (a al : Int) (hsub : String) (bn : Nat),
      env.privateKey = some k →
      parseUnits amount 18 = some a →
      env.allowanceOf APRIORI_STAKING_ADDRESS env.walletAddress APRIORI_STAKING_ADDRESS = al →
      a ≤ al →
      env.submitTx (Tx.withdrawStake a env.walletAddress env.walletAddress) = none →
      (∀ h, env.receiptFor h = some ⟨TxStatus.success, bn, h⟩) →
      (env.submitTx (Tx.transferToken APRIORI_STAKING_ADDRESS APRIORI_STAKING_ADDRESS a) =
          some hsub →
        (requestUnstakeAprMON env amount false).1 = OpResult.ok
          { amount := amount, receivedAmount := none, txHash := hsub, blockNumber := bn,
            fromAddr := env.walletAddress, method := "transfer",
            message := "Your " ++ amount ++ " aprMON has been unstaked using the " ++
              "transfer" ++ " method. Please check your MON balance." }
        ∧ (requestUnstakeAprMON env amount false).2 =
          [Event.read (ReadReq.allowance APRIORI_STAKING_ADDRESS env.walletAddress
             APRIORI_STAKING_ADDRESS),
           Event.write (Tx.withdrawStake a env.walletAddress env.walletAddress),
           Event.write (Tx.transferToken APRIORI_STAKING_ADDRESS APRIORI_STAKING_ADDRESS a),
           Event.wait hsub])
      ∧ (env.submitTx (Tx.transferToken APRIORI_STAKING_ADDRESS APRIORI_STAKING_ADDRESS a) =
          none →
        (requestUnstakeAprMON env amount false).1.isOk = false
        ∧ (requestUnstakeAprMON env amount false).2 =
          [Event.read (ReadReq.allowance APRIORI_STAKING_ADDRESS env.walletAddress
             APRIORI_STAKING_ADDRESS),
           Event.write (Tx.withdrawStake a env.walletAddress env.walletAddress),
           Event.write (Tx.transferToken APRIORI_STAKING_ADDRESS APRIORI_STAKING_ADDRESS a)]) := by
  intro env k amount a al hsub bn hk hp hal hle hw hr
  have hnlt : ¬ (al < a) := by omega
  constructor
  · intro ht
    constructor <;>
      simp [requestUnstakeAprMON, runOp, requestUnstakeAprMONCore, bindM, catchM, pureM,
        throwM, emitM, requireKeyM, parseUnitsM, allowanceM, submitM, waitReceiptM,
        OpResult.isOk, hk, hp, hal, hnlt, hw, ht, hr]
  · intro ht
    constructor <;>
      simp [requestUnstakeAprMON, runOp, requestUnstakeAprMONCore, bindM, catchM, pureM,
        throwM, emitM, requireKeyM, parseUnitsM, allowanceM, submitM, waitReceiptM,
        OpResult.isOk, hk, hp, hal, hnlt, hw, ht, hr]

/-- C5 witness: at `envNoWithdraw` the transfer fallback is taken and the
result records method = "transfer"; at `envNoWithdrawNoTransfer` the
operation fails. -/
theorem C5_unstake_fallback_chain_witness :
    envNoWithdraw.submitTx (Tx.withdrawStake (10 ^ 18)
      "0x5b84Dc548e45cC4f1498b95C000C748c1c953f64"
      "0x5b84Dc548e45cC4f1498b95C000C748c1c953f64") = none
    ∧ (requestUnstakeAprMON envNoWithdraw "1" false).1 = OpResult.ok
        { amount := "1", receivedAmount := none, txHash := "0xtxhash", blockNumber := 42,
          fromAddr := "0x5b84Dc548e45cC4f1498b95C000C748c1c953f64", method := "transfer",
          message := "Your " ++ "1" ++ " aprMON has been unstaked using the " ++
            "transfer" ++ " method. Please check your MON balance." }
    ∧ (requestUnstakeAprMON envNoWithdrawNoTransfer "1" false).1.isOk = false :=
  ⟨rfl,
   ((C5_unstake_fallback_chain envNoWithdraw "0xkey" "1" (10 ^ 18) (10 ^ 30) "0xtxhash" 42
      rfl (by decide) rfl (by norm_num) rfl (fun h => rfl)).1 rfl).1,
   ((C5_unstake_fallback_chain envNoWithdrawNoTransfer "0xkey" "1" (10 ^ 18) (10 ^ 30)
      "0xtxhash" 42 rfl (by decide) rfl (by norm_num) rfl (fun h => rfl)).2 rfl).1⟩

/-- C6 counterexample: for the (aprMON, MON) pair — the one entry of the
named-exception table — the quote operation does not consult the table: it
queries the canonical two-hop path, which differs from the table's path. -/
theorem C6_counterexample :
    exceptionPath "aprMON" "MON" = some APRMON_MON_PATH
    ∧ (getSwapQuote envHappy "aprMON" "MON" "1").2 =
        [Event.read (ReadReq.getAmountsOut (10 ^ 18)
          ["0xb2f82D0f38dc453D596Ad40A37799446Cc89274A",
           "0x760AfE86e5de5fa0Ee542fc7B7B713e1c5425701"])]
    ∧ ["0xb2f82D0f38dc453D596Ad40A37799446Cc89274A",
       "0x760AfE86e5de5fa0Ee542fc7B7B713e1c5425701"] ≠ APRMON_MON_PATH :=
  ⟨by decide, by decide, by decide⟩

/-- C6 amended: only `executeSwap` checks the named-exception table first (its
aprMON → MON run swaps over the table's hardcoded three-hop path), while
`getSwapQuote` always constructs the canonical two-hop path
[sourceAddress, destinationAddress] with native endpoints substituted by the
wrapped-asset address — even for the excepted pair. -/
theorem C6_exception_table_execution_only :
    (∀ (env : Env) (amount : String) (a : Int) (o : List Int),
      parseUnits amount 18 = some a →
      env.amountsOut a ["0xb2f82D0f38dc453D596Ad40A37799446Cc89274A",
        "0x760AfE86e5de5fa0Ee542fc7B7B713e1c5425701"] = some o →
      (getSwapQuote env "aprMON" "MON" amount).2 =
        [Event.read (ReadReq.getAmountsOut a
          ["0xb2f82D0f38dc453D596Ad40A37799446Cc89274A",
           "0x760AfE86e5de5fa0Ee542fc7B7B713e1c5425701"])])
    ∧ (∀ (env : Env) (k amount : String) (a bps : Int) (hsub : String) (bn : Nat),
      env.privateKey = some k →
      parseUnits amount 18 = some a →
      (∀ t, env.submitTx t = some hsub) →
      (∀ h, env.receiptFor h = some ⟨TxStatus.success, bn, h⟩) →
      (executeSwap env "aprMON" "MON" amount bps).2 =
        [Event.read ReadReq.getBlock,
         Event.write (Tx.approve APRIORI_STAKING_ADDRESS SWAP_ROUTER_ADDRESS a),
         Event.wait hsub,
         Event.write (Tx.swapExactTokensForETH a
           (amountOutMinFormula (bigintDiv (a * 9988) 10000) bps) APRMON_MON_PATH
           env.walletAddress (env.blockTimestamp + 20 * 60)),
         Event.wait hsub]
      ∧ exceptionPath "aprMON" "MON" = some APRMON_MON_PATH)
    ∧ (∀ (env : Env) (amount : String) (a : Int) (o : List Int),
      parseUnits amount 6 = some a →
      env.amountsOut a ["0xf817257fed379853cDe0fa4F97AB987181B1E5Ea",
        "0xB5a30b0FDc5EA94A52fDc42e3E9760Cb8449Fb37"] = some o →
      (getSwapQuote env "USDC" "WETH" amount).2 =
        [Event.read (ReadReq.getAmountsOut a
          ["0xf817257fed379853cDe0fa4F97AB987181B1E5Ea",
           "0xB5a30b0FDc5EA94A52fDc42e3E9760Cb8449Fb37"])]) := by
  refine ⟨?_, ?_, ?_⟩
  · intro env amount a o hp ho
    simp [getSwapQuote, runOp, getSwapQuoteCore, bindM, catchM, pureM, throwM, emitM,
      parseUnitsM, amountsOutM, getInfoM, getIndexM, findTokenKey, tokenKeys, TOKEN_MAP,
      tokenInfo, jsToUpper, jsToLower, hp, ho]
    cases o with
    | nil => simp [throwM, pureM]
    | cons x xs => cases xs <;> simp [throwM, pureM]
  · intro env k amount a bps hsub bn hk hp hs hr
    refine ⟨?_, by decide⟩
    simp [executeSwap, runOp, executeSwapCore, bindM, catchM, pureM, throwM, emitM,
      requireKeyM, parseUnitsM, readBlockM, amountsOutM, submitM, waitReceiptM, getInfoM,
      getIndexM, findTokenKey, tokenKeys, TOKEN_MAP, tokenInfo, jsToUpper, jsToLower,
      amountOutMinFormula, hk, hp, hs, hr]
  · intro env amount a o hp ho
    simp [getSwapQuote, runOp, getSwapQuoteCore, bindM, catchM, pureM, throwM, emitM,
      parseUnitsM, amountsOutM, getInfoM, getIndexM, findTokenKey, tokenKeys, TOKEN_MAP,
      tokenInfo, jsToUpper, jsToLower, hp, ho]
    cases o with
    | nil => simp [throwM, pureM]
    | cons x xs => cases xs <;> simp [throwM, pureM]

/-- C6 amended witness: the quote for the excepted pair at a concrete
environment queries the two-hop path. -/
theorem C6_exception_table_execution_only_witness :
    parseUnits "1" 18 = some (10 ^ 18)
    ∧ envHappy.amountsOut (10 ^ 18) ["0xb2f82D0f38dc453D596Ad40A37799446Cc89274A",
        "0x760AfE86e5de5fa0Ee542fc7B7B713e1c5425701"] = some [10 ^ 6, 1000000]
    ∧ (getSwapQuote envHappy "aprMON" "MON" "1").2 =
        [Event.read (ReadReq.getAmountsOut (10 ^ 18)
          ["0xb2f82D0f38dc453D596Ad40A37799446Cc89274A",
           "0x760AfE86e5de5fa0Ee542fc7B7B713e1c5425701"])] :=
  ⟨by decide, rfl,
   C6_exception_table_execution_only.1 envHappy "1" (10 ^ 18) [10 ^ 6, 1000000]
     (by decide) rfl⟩

/-- C7 counterexample: `executeSwap` performs no balance check at all: with a
zero USDC balance (and zero native balance) it still submits the approval and
swap transactions and even reports success — the claimed terminal
InsufficientFunds failure before any submission does not exist for swaps. -/
theorem C7_counterexample :
    envBroke.tokenBalance "0xf817257fed379853cDe0fa4F97AB987181B1E5Ea"
        envBroke.walletAddress = 0
    ∧ (0 : Int) < 10 ^ 6
    ∧ Event.write (Tx.approve "0xf817257fed379853cDe0fa4F97AB987181B1E5Ea"
        SWAP_ROUTER_ADDRESS (10 ^ 6)) ∈ (executeSwap envBroke "USDC" "WETH" "1" 20).2
    ∧ (executeSwap envBroke "USDC" "WETH" "1" 20).1.isOk = true :=
  ⟨rfl, by norm_num, by decide, by decide⟩

/-- C7 amended: the wrap, unwrap and stake operations check the mover's
balance of the source asset during validation (native balance via the chain's
balance query, WMON balance via a contract read) and fail with the
insufficient-balance error before any transaction is submitted — the trace
contains exactly the one balance read; the swap and unstake operations
perform no balance check (per the counterexample). -/
theorem C7_balance_checked_wrap_unwrap_stake :
    (∀ (env : Env) (k amount : String) (a b : Int),
      env.privateKey = some k →
      parseUnits amount 18 = some a →
      env.nativeBalance env.walletAddress = b →
      b < a →
      (wrapMON env amount).1 = OpResult.err ("Insufficient MON balance. You have " ++
        formatUnits b 18 ++ " MON but trying to wrap " ++ amount ++ " MON")
      ∧ (wrapMON env amount).2 = [Event.read (ReadReq.getBalance env.walletAddress)])
    ∧ (∀ (env : Env) (k amount : String) (a b : Int),
      env.privateKey = some k →
      parseUnits amount 18 = some a →
      env.tokenBalance WMON_ADDRESS env.walletAddress = b →
      b < a →
      (unwrapWMON env amount).1 = OpResult.err ("Insufficient WMON balance. You have " ++
        formatUnits b 18 ++ " WMON but trying to unwrap " ++ amount ++ " WMON")
      ∧ (unwrapWMON env amount).2 =
          [Event.read (ReadReq.balanceOf WMON_ADDRESS env.walletAddress)])
    ∧ (∀ (env : Env) (k amount : String) (a b : Int),
      env.privateKey = some k →
      jsToLower env.walletAddress = jsToLower EXPECTED_STAKE_ADDRESS →
      parseUnits amount 18 = some a →
      env.nativeBalance env.walletAddress = b →
      b < a →
      (stakeMON env amount).1 = OpResult.err ("Insufficient MON balance. You have " ++
        formatUnits b 18 ++ " MON but tried to stake " ++ amount ++ " MON")
      ∧ (stakeMON env amount).2 = [Event.read (ReadReq.getBalance env.walletAddress)]) := by
  refine ⟨?_, ?_, ?_⟩
  · intro env k amount a b hk hp hb hlt
    constructor <;>
      simp [wrapMON, runOp, wrapMONCore, bindM, catchM, pureM, throwM, emitM,
        requireKeyM, parseUnitsM, getBalanceM, submitM, waitReceiptM, hk, hp, hb, hlt]
  · intro env k amount a b hk hp hb hlt
    constructor <;>
      simp [unwrapWMON, runOp, unwrapWMONCore, bindM, catchM, pureM, throwM, emitM,
        requireKeyM, parseUnitsM, balanceOfM, submitM, waitReceiptM, hk, hp, hb, hlt]
  · intro env k amount a b hk haddr hp hb hlt
    constructor <;>
      simp [stakeMON, runOp, stakeMONCore, bindM, catchM, pureM, throwM, emitM,
        requireKeyM, parseUnitsM, getBalanceM, submitM, waitReceiptM, hk, haddr, hp, hb, hlt]

/-- C7 amended witness: wrapping 1 MON with a zero balance fails with the
insufficient-balance error after exactly one balance read. -/
theorem C7_balance_checked_wrap_unwrap_stake_witness :
    envBroke.privateKey = some "0xkey"
    ∧ parseUnits "1" 18 = some (10 ^ 18)
    ∧ envBroke.nativeBalance envBroke.walletAddress = 0
    ∧ (0 : Int) < 10 ^ 18
    ∧ (wrapMON envBroke "1").1 = OpResult.err ("Insufficient MON balance. You have " ++
        formatUnits 0 18 ++ " MON but trying to wrap " ++ "1" ++ " MON")
    ∧ (wrapMON envBroke "1").2 =
        [Event.read (ReadReq.getBalance "0x5b84Dc548e45cC4f1498b95C000C748c1c953f64")] :=
  ⟨rfl, by decide, rfl, by norm_num,
   (C7_balance_checked_wrap_unwrap_stake.1 envBroke "0xkey" "1" (10 ^ 18) 0 rfl (by decide)
      rfl (by norm_num)).1,
   (C7_balance_checked_wrap_unwrap_stake.1 envBroke "0xkey" "1" (10 ^ 18) 0 rfl (by decide)
      rfl (by norm_num)).2⟩

/-- C9: in the aprMON → MON special case, the reported output amount is
computed locally as `amountIn * 9988 / 10000` (a ratio hardcoded from one
historical transaction): the full run — for an environment whose
`getAmountsOut` oracle is left completely unconstrained — returns exactly
that formatted ratio as `toAmount`, and the trace contains no quote or price
read at all (only getBlock, approve, and the swap itself). -/
theorem C9_aprmon_output_hardcoded_ratio :
    ∀ (env : Env) (k amount : String) (a bps : Int) (hsub : String) (bn : Nat),
      env.privateKey = some k →
      parseUnits amount 18 = some a →
      (∀ t, env.submitTx t = some hsub) →
      (∀ h, env.receiptFor h = some ⟨TxStatus.success, bn, h⟩) →
      executeSwap env "aprMON" "MON" amount bps =
        (OpResult.ok
          { fromTok := "aprMON", toTok := "MON", fromAmount := amount,
            toAmount := formatUnits (bigintDiv (a * 9988) 10000) 18, txHash := hsub,
            blockNumber := bn, fromAddr := env.walletAddress },
         [Event.read ReadReq.getBlock,
          Event.write (Tx.approve APRIORI_STAKING_ADDRESS SWAP_ROUTER_ADDRESS a),
          Event.wait hsub,
          Event.write (Tx.swapExactTokensForETH a
            (amountOutMinFormula (bigintDiv (a * 9988) 10000) bps) APRMON_MON_PATH
            env.walletAddress (env.blockTimestamp + 20 * 60)),
          Event.wait hsub]) := by
  intro env k amount a bps hsub bn hk hp hs hr
  simp [executeSwap, runOp, executeSwapCore, bindM, catchM, pureM, throwM, emitM,
    requireKeyM, parseUnitsM, readBlockM, amountsOutM, submitM, waitReceiptM, getInfoM,
    getIndexM, findTokenKey, tokenKeys, TOKEN_MAP, tokenInfo, jsToUpper, jsToLower,
    amountOutMinFormula, hk, hp, hs, hr]

/-- C9 witness: swapping 1 aprMON reports toAmount "0.9988" — exactly
formatUnits(10^18 * 9988 / 10000, 18) — with no price read in the trace. -/
theorem C9_aprmon_output_hardcoded_ratio_witness :
    parseUnits "1" 18 = some (10 ^ 18)
    ∧ executeSwap envHappy "aprMON" "MON" "1" 50 =
      (OpResult.ok
        { fromTok := "aprMON", toTok := "MON", fromAmount := "1",
          toAmount := formatUnits (bigintDiv (10 ^ 18 * 9988) 10000) 18,
          txHash := "0xtxhash", blockNumber := 42,
          fromAddr := "0x5b84Dc548e45cC4f1498b95C000C748c1c953f64" },
       [Event.read ReadReq.getBlock,
        Event.write (Tx.approve APRIORI_STAKING_ADDRESS SWAP_ROUTER_ADDRESS (10 ^ 18)),
        Event.wait "0xtxhash",
        Event.write (Tx.swapExactTokensForETH (10 ^ 18)
          (amountOutMinFormula (bigintDiv (10 ^ 18 * 9988) 10000) 50) APRMON_MON_PATH
          "0x5b84Dc548e45cC4f1498b95C000C748c1c953f64" (1000 + 20 * 60)),
        Event.wait "0xtxhash"])
    ∧ formatUnits (bigintDiv (10 ^ 18 * 9988) 10000) 18 = "0.9988" :=
  ⟨by decide,
   C9_aprmon_output_hardcoded_ratio envHappy "0xkey" "1" (10 ^ 18) 50 "0xtxhash" 42 rfl
     (by decide) (fun t => rfl) (fun h => rfl),
   by decide⟩

/-- C10: a direct transfer (native or token) returns a success whose message
asserts on-chain confirmation immediately after the transaction is submitted:
the trace ends with the submission, contains no receipt wait, and the success
payload carries the transaction hash but no block number (the
`TransferSuccess` record has no such field). -/
theorem C10_transfer_no_confirmation_wait :
    (∀ (env : Env) (k toAddr amount : String) (v b : Int) (hsub : String),
      env.privateKey = some k →
      env.nativeBalance env.walletAddress = b →
      b ≠ 0 →
      parseUnits amount 18 = some v →
      (∀ t, env.submitTx t = some hsub) →
      executeTransfer env toAddr amount "MON" =
        (OpResult.ok
          { fromAddr := env.walletAddress, txHash := hsub, token := "MON",
            amount := amount,
            message := "The transaction has been confirmed on the blockchain." },
         [Event.read (ReadReq.getBalance env.walletAddress),
          Event.write (Tx.sendNative toAddr v)]))
    ∧ (∀ (env : Env) (k toAddr amount : String) (v b : Int) (hsub : String),
      env.privateKey = some k →
      env.nativeBalance env.walletAddress = b →
      b ≠ 0 →
      parseUnits amount 6 = some v →
      (∀ t, env.submitTx t = some hsub) →
      executeTransfer env toAddr amount "USDC" =
        (OpResult.ok
          { fromAddr := env.walletAddress, txHash := hsub, token := "USDC",
            amount := amount,
            message := "The transaction has been confirmed on the blockchain." },
         [Event.read (ReadReq.getBalance env.walletAddress),
          Event.write (Tx.transferToken "0xf817257fed379853cDe0fa4F97AB987181B1E5Ea"
            toAddr v)])) := by
  constructor
  · intro env k toAddr amount v b hsub hk hb hb0 hp hs
    simp [executeTransfer, runOp, executeTransferCore, bindM, catchM, pureM, throwM, emitM,
      requireKeyM, parseUnitsM, getBalanceM, submitM, waitReceiptM, getInfoM,
      findTokenKey, tokenKeys, TOKEN_MAP, tokenInfo, jsToUpper, jsToLower,
      hk, hb, hb0, hp, hs]
  · intro env k toAddr amount v b hsub hk hb hb0 hp hs
    simp [executeTransfer, runOp, executeTransferCore, bindM, catchM, pureM, throwM, emitM,
      requireKeyM, parseUnitsM, getBalanceM, submitM, waitReceiptM, getInfoM,
      findTokenKey, tokenKeys, TOKEN_MAP, tokenInfo, jsToUpper, jsToLower,
      hk, hb, hb0, hp, hs]

/-- C10 witness: a concrete native transfer returns the confirmed-sounding
success right after submission, with no receipt wait in the trace. -/
theorem C10_transfer_no_confirmation_wait_witness :
    envHappy.privateKey = some "0xkey"
    ∧ (10 ^ 24 : Int) ≠ 0
    ∧ parseUnits "1" 18 = some (10 ^ 18)
    ∧ executeTransfer envHappy "0x2222222222222222222222222222222222222222" "1" "MON" =
      (OpResult.ok
        { fromAddr := "0x5b84Dc548e45cC4f1498b95C000C748c1c953f64",
          txHash := "0xtxhash", token := "MON", amount := "1",
          message := "The transaction has been confirmed on the blockchain." },
       [Event.read (ReadReq.getBalance "0x5b84Dc548e45cC4f1498b95C000C748c1c953f64"),
        Event.write (Tx.sendNative "0x2222222222222222222222222222222222222222" (10 ^ 18))]) :=
  ⟨rfl, by norm_num, by decide,
   C10_transfer_no_confirmation_wait.1 envHappy "0xkey"
     "0x2222222222222222222222222222222222222222" "1" (10 ^ 18) (10 ^ 24) "0xtxhash" rfl rfl
     (by norm_num) (by decide) (fun t => rfl)⟩
